import Mathlib

/-!
Verification of the Amber ingestion / knowledge-graph core.

Shallow embedding of the Python sources:
* `src/core/prompts/entity_extraction.py`   (extraction data model, prompts)
* `src/core/extraction/graph_extractor.py`  (GraphExtractor: extract, gleaning, parse)
* `src/core/graph/application/processor.py` (GraphProcessor: bounded-concurrency fan-out)
* `src/core/graph/enrichment.py`            (GraphEnricher: SIMILAR_TO, CO_OCCURS)
* `src/core/ingestion/application/use_cases_documents.py`
                                            (UploadDocumentUseCase, DeleteDocumentUseCase)

External Python libraries (json, pydantic) and external ports (LLM provider,
vector store, graph store transport) are modelled as explicit function
parameters returning `Except` for fallible calls.  Python floats that only
flow through order comparisons are modelled as rationals.
-/

namespace Amber

/-! ## Extraction data model (src/core/prompts/entity_extraction.py) -/

/-- `ExtractedEntity` pydantic model: name, type, description. -/
structure ExtractedEntity where
  name : String
  type : String
  description : String
deriving DecidableEq, Repr

/-- `ExtractedRelationship` pydantic model: source, target, type, description, weight (default 1). -/
structure ExtractedRelationship where
  source : String
  target : String
  type : String
  description : String
  weight : Int := 1
deriving DecidableEq, Repr

/-- `ExtractionResult` pydantic model: entity and relationship lists, both defaulting to empty. -/
structure ExtractionResult where
  entities : List ExtractedEntity := []
  relationships : List ExtractedRelationship := []
deriving DecidableEq, Repr

/-- `ExtractionResult()` with both default factories: the empty result. -/
def ExtractionResult.empty : ExtractionResult := {}

/-- `EXTRACTION_SYSTEM_PROMPT` string constant. -/
def EXTRACTION_SYSTEM_PROMPT : String :=
  "\nYou are an expert Knowledge Graph builder. Your task is to extract structured entities and relationships from the provided text.\n\nGUIDELINES:\n1. Identify key entities (People, Organizations, Locations, Concepts, Events, Products).\n2. Extract meaningful relationships between them.\n3. Use consistent naming (e.g., \"Microsoft\" instead of \"Microsoft Corp.\" if referred to as such).\n4. Relationships should have descriptive types (e.g., \x27ACQUIRED\x27, \x27LOCATED_IN\x27) and context in the description.\n5. Entity descriptions should be self-contained summaries of what the text says about the entity.\n6. AVOID generic entities like \"User\", \"The System\", \"It\", \"They\" unless they are specific named concepts.\n\nOUTPUT FORMAT:\nReturn a JSON object matching the schema:\n\x7b\n  \"entities\": [\x7b\"name\": \"...\", \"type\": \"...\", \"description\": \"...\"\x7d],\n  \"relationships\": [\x7b\"source\": \"...\", \"target\": \"...\", \"type\": \"...\", \"description\": \"...\", \"weight\": 1\x7d]\n\x7d\n"

/-- `GLEANING_SYSTEM_PROMPT` string constant. -/
def GLEANING_SYSTEM_PROMPT : String :=
  "\nYou are an expert Knowledge Graph builder. You are performing a \"Gleaning\" pass to catch any entities or relationships missed in the first extraction.\nReview the text again and the LIST OF ALREADY EXTRACTED ENTITIES provided.\nExtract ONLY NEW entities and relationships that are NOT in the provided list but are important.\nIf no new significant entities are found, return empty lists.\n"

/-! ## GraphExtractor (src/core/extraction/graph_extractor.py)

The extractor's external dependencies are passed explicitly.
`get_llm_provider(tier=ProviderTier.ECONOMY)` is called before the `try`
block of `extract` and can itself raise (`RuntimeError` when providers
are not initialized, `ProviderUnavailableError` when no key is
configured); on success it yields the provider whose
`generate(prompt, system_prompt, temperature).text` call can raise
provider exceptions.  `jsonLoads` models `json.loads` (raising
`json.JSONDecodeError` as `Except.error`).  `ExtractionResult(**data)`
is modelled in two stages: `isMapping` tells whether the decoded value
supports `**` unpacking — a non-mapping makes the call raise `TypeError`,
which is not among `_parse_result`'s handlers — and `validate` is the
pydantic validation of a mapping (raising `ValidationError` as
`Except.error`).  The intermediate type `D` stands for the decoded
Python object. -/

/-- The LLM provider object returned by `get_llm_provider`. -/
structure Provider where
  generate : (prompt : String) → (systemPrompt : String) → (temperature : ℚ) → Except Unit String

/-- Python exceptions that escape `_parse_result`'s handlers. -/
inductive PyExc where
  /-- `TypeError` from `**`-unpacking a non-mapping decoded JSON value. -/
  | typeError : PyExc
deriving DecidableEq, Repr

/-- Environment of external calls made by `GraphExtractor`. -/
structure ExtractorEnv (D : Type) where
  get_llm_provider : Except Unit Provider
  jsonLoads : String → Except Unit D
  isMapping : D → Bool
  validate : D → Except Unit ExtractionResult

/-- Constructor arguments of `GraphExtractor`: `use_gleaning` (default True),
`max_gleaning_steps` (default 1). -/
structure GraphExtractorCfg where
  use_gleaning : Bool := true
  max_gleaning_steps : Nat := 1

namespace GraphExtractor

/-- The fence-stripping prefix of `GraphExtractor._parse_result`:
strip; drop a leading three-backtick-json marker (7 chars); drop a leading
three-backtick marker (3 chars); drop a trailing three-backtick marker;
strip again. -/
def cleanFences (jsonText : String) : String :=
  let t := jsonText.trim
  let t := if t.startsWith "```json" then t.drop 7 else t
  let t := if t.startsWith "```" then t.drop 3 else t
  let t := if t.endsWith "```" then t.dropRight 3 else t
  t.trim

/-- `GraphExtractor._parse_result`: clean markdown code fences, decode
JSON, then build `ExtractionResult(**data)`.  The handlers catch exactly
`json.JSONDecodeError` and pydantic `ValidationError`, returning the
empty `ExtractionResult`; when the decoded value is not a mapping, the
`**` unpacking raises `TypeError`, which matches neither handler and
propagates to the caller (`Except.error .typeError`). -/
def parse_result {D : Type} (env : ExtractorEnv D) (jsonText : String) :
    Except PyExc ExtractionResult :=
  let cleaned := cleanFences jsonText
  match env.jsonLoads cleaned with
  | .error _ => .ok ExtractionResult.empty
  | .ok data =>
    if env.isMapping data then
      match env.validate data with
      | .error _ => .ok ExtractionResult.empty
      | .ok r => .ok r
    else
      .error .typeError

/-- The base-pass user prompt built in `GraphExtractor.extract`. -/
def basePrompt (text : String) : String :=
  "Text to extract from:\n\n" ++ text

/-- The gleaning-pass user prompt built in `GraphExtractor.extract`:
the text plus the comma-joined names already extracted. -/
def gleanPrompt (text : String) (existingNames : List String) : String :=
  "Text:\n" ++ text ++ "\n\nExisting Entities: " ++ String.intercalate ", " existingNames

/-- One iteration of the gleaning loop body.  Returns `none` when the
loop breaks — the provider call raised, the parse raised (its
`TypeError` is caught here by the gleaning pass's broad
`except Exception`), or the gleaned result has no entities — and
`some merged` when the loop continues with the extended accumulator.
On break the current accumulator is kept unchanged (in particular the
relationships of an entity-less gleaned result are discarded, as in the
source where `break` precedes the extends). -/
def gleanStep {D : Type} (env : ExtractorEnv D) (p : Provider) (text : String)
    (cur : ExtractionResult) : Option ExtractionResult :=
  match p.generate (gleanPrompt text (cur.entities.map (fun e => e.name)))
      GLEANING_SYSTEM_PROMPT (2/10) with
  | .error _ => none
  | .ok out =>
    match parse_result env out with
    | .error _ => none
    | .ok newItems =>
      if newItems.entities.isEmpty then
        none
      else
        some { entities := cur.entities ++ newItems.entities,
               relationships := cur.relationships ++ newItems.relationships }

/-- The gleaning loop `for i in range(max_gleaning_steps)` of
`GraphExtractor.extract`, with the remaining iteration count as fuel:
each iteration either breaks (returning the accumulator) or continues
with the merged accumulator. -/
def gleanLoop {D : Type} (env : ExtractorEnv D) (p : Provider) (text : String) :
    Nat → ExtractionResult → ExtractionResult
  | 0, cur => cur
  | n + 1, cur =>
    match gleanStep env p text cur with
    | none => cur
    | some next => gleanLoop env p text n next

/-- `GraphExtractor.extract`: acquire the ECONOMY-tier provider — this
call precedes the `try` block, so its exception propagates to the
caller (`Except.error`); then the base pass (temperature 0), whose
provider call and `_parse_result` sit inside a broad `except Exception`
that yields the empty result; then, when gleaning is enabled, up to
`max_gleaning_steps` gleaning passes, each in its own broad handler. -/
def extract {D : Type} (env : ExtractorEnv D) (cfg : GraphExtractorCfg)
    (text : String) : Except Unit ExtractionResult :=
  match env.get_llm_provider with
  | .error e => .error e
  | .ok provider =>
    .ok (match provider.generate (basePrompt text) EXTRACTION_SYSTEM_PROMPT 0 with
      | .error _ => ExtractionResult.empty
      | .ok resultText =>
        match parse_result env resultText with
        | .error _ => ExtractionResult.empty
        | .ok base =>
          if cfg.use_gleaning then
            gleanLoop env provider text cfg.max_gleaning_steps base
          else
            base)

end GraphExtractor

/-- Minimal decoded-JSON shape for concrete instantiations: an array
(not a mapping) or an object (a mapping). -/
inductive PyJson where
  | array : List Nat → PyJson
  | obj : List (String × String) → PyJson
deriving DecidableEq, Repr

/-- Concrete extractor environment: providers not initialized (the
acquisition raises), a decoder behaving like `json.loads` on the array
output `[1, 2]`, and a validator rejecting every mapping. -/
def exampleExtractorEnv : ExtractorEnv PyJson :=
  { get_llm_provider := .error ()
    jsonLoads := fun _ => .ok (.array [1, 2])
    isMapping := fun d => match d with
      | .obj _ => true
      | .array _ => false
    validate := fun _ => .error () }

/-- Concrete extractor environment whose provider is available but whose
every generate call raises, and whose decoder rejects every output. -/
def exampleRaisingProviderEnv : ExtractorEnv PyJson :=
  { get_llm_provider := .ok { generate := fun _ _ _ => .error () }
    jsonLoads := fun _ => .error ()
    isMapping := fun d => match d with
      | .obj _ => true
      | .array _ => false
    validate := fun _ => .error () }

/-! ## GraphProcessor (src/core/graph/application/processor.py)

`process_chunks` fans one unit of work per chunk through
`asyncio.gather`, each unit guarded by `asyncio.Semaphore(5)` and by a
`try/except` that logs and absorbs the unit's own failure.

Two complementary models are embedded:
* a functional model of the per-chunk unit and of the fan-out's result
  (failure isolation, C8) — the interleaving order is irrelevant for it
  because units share no state in the source;
* a transition system of the semaphore discipline (concurrency bound, C10). -/

/-- `Chunk` fields used by `GraphProcessor.process_chunks`. -/
structure Chunk where
  id : String
  document_id : String
  content : String
deriving DecidableEq, Repr

/-- External calls of one processing unit: `extractor.extract(chunk.content)`
and `graph_writer.write_extraction_result(...)`, both of which may raise. -/
structure ProcessorEnv where
  extract : String → Except Unit ExtractionResult
  write : (documentId : String) → (chunkId : String) → (tenantId : String) →
    ExtractionResult → Except Unit Unit

/-- Outcome of one chunk's unit in `process_chunks`. -/
inductive ChunkOutcome where
  /-- `len(chunk.content) < 50`: skipped before any extraction call. -/
  | skippedShort : ChunkOutcome
  /-- extraction returned no entities: nothing written. -/
  | noEntities : ChunkOutcome
  /-- extraction and write both succeeded. -/
  | written : ChunkOutcome
  /-- extraction or write raised; logged by the unit's `except` handler. -/
  | failedLogged : ChunkOutcome
deriving DecidableEq, Repr

namespace GraphProcessor

/-- The body of `_process_one` inside its `try`: length pre-filter, extract,
write only when entities were found.  Exceptions of `extract`/`write`
propagate out of this body. -/
def runUnit (env : ProcessorEnv) (tenantId : String) (c : Chunk) :
    Except Unit ChunkOutcome :=
  if c.content.length < 50 then
    .ok .skippedShort
  else do
    let result ← env.extract c.content
    if result.entities.isEmpty then
      .ok .noEntities
    else do
      env.write c.document_id c.id tenantId result
      .ok .written

/-- `_process_one`: the unit body wrapped in the per-chunk
`try/except Exception` that logs the failure and returns normally. -/
def processOne (env : ProcessorEnv) (tenantId : String) (c : Chunk) : ChunkOutcome :=
  match runUnit env tenantId c with
  | .ok o => o
  | .error _ => .failedLogged

/-- `process_chunks`: one unit per chunk, gathered; the call's result
is an `Except` so that an uncaught per-unit exception would surface here —
the proofs show it never does, because `processOne` absorbs unit failures. -/
def process_chunks (env : ProcessorEnv) (chunks : List Chunk)
    (tenantId : String) : Except Unit (List ChunkOutcome) :=
  match chunks with
  | [] => .ok []
  | c :: rest => do
    let o := processOne env tenantId c
    let os ← process_chunks env rest tenantId
    .ok (o :: os)

/-- `asyncio.Semaphore(5)` created in `process_chunks`: "5 concurrent
requests is a safe default for economy tier". -/
def semLimit : Nat := 5

/-- Scheduler-visible state of one `process_chunks` run: how many units
have not yet entered `async with sem`, how many are inside it (their
extraction call in flight), how many have finished, and the semaphore
counter. -/
structure ProcState where
  pending : Nat
  inFlight : Nat
  completed : Nat
  sem : Nat
deriving DecidableEq, Repr

/-- Initial state of a run over `m` chunks: all units pending, semaphore
counter at `semLimit`. -/
def procInit (m : Nat) : ProcState :=
  { pending := m, inFlight := 0, completed := 0, sem := semLimit }

/-- Interleaving steps of the semaphore discipline of `_process_one`:
a pending unit may enter `async with sem` only by decrementing a positive
semaphore counter; a unit holding the semaphore may finish, releasing it.
These are the only transitions touching the counter in the source. -/
inductive ProcStep : ProcState → ProcState → Prop
  | acquire (p f c s : Nat) :
      ProcStep { pending := p + 1, inFlight := f, completed := c, sem := s + 1 }
        { pending := p, inFlight := f + 1, completed := c, sem := s }
  | release (p f c s : Nat) :
      ProcStep { pending := p, inFlight := f + 1, completed := c, sem := s }
        { pending := p, inFlight := f, completed := c + 1, sem := s + 1 }

/-- States reachable during a `process_chunks` run over `m` chunks. -/
def ProcReachable (m : Nat) (s : ProcState) : Prop :=
  Relation.ReflTransGen ProcStep (procInit m) s

end GraphProcessor

/-! ## GraphEnricher (src/core/graph/enrichment.py) -/

/-- One vector-search hit as consumed by `create_similarity_edges`:
`res.get("id")` may be absent (`none`) and `res.get("score", 0)` defaults
to 0 when absent.  Scores are Python floats used only in order
comparisons; modelled as rationals. -/
structure SearchResult where
  id : Option String
  score : Option ℚ
deriving DecidableEq, Repr

/-- A `MERGE (c1)-[:SIMILAR_TO]->(c2)` write issued by
`create_similarity_edges`, with its parameters `$id1`, `$id2`, `$score`. -/
structure SimilarityEdge where
  id1 : String
  id2 : Option String
  score : ℚ
deriving DecidableEq, Repr

namespace GraphEnricher

/-- `GraphEnricher.create_similarity_edges`: search the vector store for
`limit + 1` neighbours of `embedding` filtered to the tenant (a raising
search is caught, logged and yields no edges); then for each result skip
it when its id equals `chunk_id` or its score is below `threshold`, and
otherwise issue the SIMILAR_TO merge carrying the score.  The returned
list is the sequence of issued merges. -/
def create_similarity_edges
    (search : (embedding : List ℚ) → (tenantId : String) → (limit : Nat) →
      Except Unit (List SearchResult))
    (chunkId : String) (embedding : List ℚ) (tenantId : String)
    (threshold : ℚ) (limit : Nat) : List SimilarityEdge :=
  match search embedding tenantId (limit + 1) with
  | .error _ => []
  | .ok results =>
    results.filterMap (fun res =>
      let otherId := res.id
      let score := res.score.getD 0
      if otherId = some chunkId then
        none
      else if score < threshold then
        none
      else
        some { id1 := chunkId, id2 := otherId, score := score })

/-- Graph-store contents read by `compute_co_occurrence`: Entity nodes
(identified by their Neo4j `elementId`, modelled as `Nat` so that the
query's `elementId(e1) < elementId(e2)` is the numeric order), their
`tenant_id` attribute, Chunk nodes, and the set of `MENTIONS` edges from
chunks to entities (a set, because the writer merges mention edges). -/
structure CoGraph where
  entities : Finset Nat
  tenant_of : Nat → String
  chunks : Finset Nat
  mentions : Finset (Nat × Nat)

/-- Number of chunks matching the pattern
`(e1)<-[:MENTIONS]-(c:Chunk)-[:MENTIONS]->(e2)` for a fixed entity pair:
the chunks mentioning both.  This is the query's grouped `count(c)`. -/
def sharedChunkCount (g : CoGraph) (e1 e2 : Nat) : Nat :=
  (g.chunks.filter (fun c => (c, e1) ∈ g.mentions ∧ (c, e2) ∈ g.mentions)).card

/-- `GraphEnricher.compute_co_occurrence`: the set of
`MERGE (e1)-[r:CO_OCCURS]-(e2) SET r.weight = weight` writes produced by
the Cypher statement — one per pair of tenant entities with
`elementId(e1) < elementId(e2)` that matches the shared-chunk pattern at
least once (the `MATCH` requires a witness chunk) and whose grouped
`count(c)` is at least `min_weight`.  Each element is
`(e1, e2, weight)`. -/
def compute_co_occurrence (g : CoGraph) (tenantId : String)
    (minWeight : Nat) : Finset (Nat × Nat × Nat) :=
  ((g.entities ×ˢ g.entities).filter (fun p =>
      g.tenant_of p.1 = tenantId ∧ g.tenant_of p.2 = tenantId ∧
      p.1 < p.2 ∧ 0 < sharedChunkCount g p.1 p.2 ∧
      minWeight ≤ sharedChunkCount g p.1 p.2)).image
    (fun p => (p.1, p.2, sharedChunkCount g p.1 p.2))

end GraphEnricher

/-! ## DeleteDocumentUseCase (src/core/ingestion/application/use_cases_documents.py)

Two layers are embedded: the graph-store effect of the hardened deletion
Cypher statement (step 2), and the use case's step orchestration with its
per-step `try/except` isolation. -/

/-- Graph-store contents touched by the deletion Cypher statement:
Document nodes keyed by `(id, tenant_id)`, Chunk and Entity nodes by id,
`HAS_CHUNK` edges (document id, chunk id) and `MENTIONS` edges
(chunk id, entity id). -/
structure DelGraph where
  docs : Finset (String × String)
  chunks : Finset String
  entities : Finset String
  has_chunk : Finset (String × String)
  mentions : Finset (String × String)

namespace DelGraph

/-- Chunks matched by `(d)-[:HAS_CHUNK]->(c:Chunk)` for document `docId`. -/
def docChunks (g : DelGraph) (docId : String) : Finset String :=
  g.chunks.filter (fun c => (docId, c) ∈ g.has_chunk)

/-- The `collect(DISTINCT e)` union over the document's chunks: entities
mentioned by at least one chunk of `docId`. -/
def collectedEntities (g : DelGraph) (docId : String) : Finset String :=
  g.entities.filter (fun e => ∃ c ∈ docChunks g docId, (c, e) ∈ g.mentions)

/-- The `MENTIONS` edges surviving `DETACH DELETE d, c`: those whose
source chunk is not a chunk of the deleted document. -/
def survivingMentions (g : DelGraph) (docId : String) : Finset (String × String) :=
  g.mentions.filter (fun m => m.1 ∉ docChunks g docId)

/-- The entities removed by the orphan sweep
`WHERE entity IS NOT NULL AND NOT (entity)<-[:MENTIONS]-()`: collected
entities with no surviving incoming `MENTIONS` edge.  Per Cypher clause
semantics the check runs after all chunk deletions of the statement. -/
def orphanEntities (g : DelGraph) (docId : String) : Finset String :=
  (collectedEntities g docId).filter (fun e => ∀ m ∈ survivingMentions g docId, m.2 ≠ e)

/-- Effect of the hardened deletion Cypher of `DeleteDocumentUseCase`
(step 2) on the graph store.  When the `MATCH` on
`Document {id, tenant_id}` finds no node, no row exists and nothing is
deleted.  Otherwise `DETACH DELETE d, c` removes the document node, all
its chunks, and every edge incident to them; then each collected entity
with no remaining incoming `MENTIONS` edge is detach-deleted together
with its incident edges. -/
def delete_document_graph (g : DelGraph) (docId tenantId : String) : DelGraph :=
  if (docId, tenantId) ∈ g.docs then
    { docs := g.docs.erase (docId, tenantId)
      chunks := g.chunks \ docChunks g docId
      entities := g.entities \ orphanEntities g docId
      has_chunk := g.has_chunk.filter (fun h => h.1 ≠ docId ∧ h.2 ∉ docChunks g docId)
      mentions := (survivingMentions g docId).filter (fun m => m.2 ∉ orphanEntities g docId) }
  else
    g

end DelGraph

/-- Concrete two-document graph: `d1` has chunk `c1`, `d2` has chunk
`c2`; entity `x` is mentioned only by `c1`, entity `s` by both chunks. -/
def exampleDelGraph : DelGraph :=
  { docs := {("d1", "t"), ("d2", "t")}
    chunks := {"c1", "c2"}
    entities := {"x", "s"}
    has_chunk := {("d1", "c1"), ("d2", "c2")}
    mentions := {("c1", "x"), ("c1", "s"), ("c2", "s")} }

/-- The fields of the relational `Document` record read by
`DeleteDocumentUseCase.execute` after its lookup. -/
structure DocRecord where
  tenant_id : String
  storage_path : String
deriving DecidableEq, Repr

/-- External calls of `DeleteDocumentUseCase.execute`: the relational
lookup (scoped to the tenant unless super admin), the graph cleanup
write, the vector-store deletion (factory, `delete_by_document` and
`disconnect` together, since one `except` covers them), the object
storage `delete_file`, and the relational `delete` + `commit`. -/
structure DeleteEnv where
  lookup : (documentId : String) → (tenantId : String) → (isSuperAdmin : Bool) →
    Option DocRecord
  graph_execute_write : (documentId : String) → (tenantId : String) → Except Unit Unit
  vector_delete : (documentId : String) → (tenantId : String) → Except Unit Unit
  storage_delete : (storagePath : String) → Except Unit Unit
  db_delete : (documentId : String) → Except Unit Unit

/-- What `DeleteDocumentUseCase.execute` logged for each cleanup step. -/
inductive StepLog where
  /-- "Cleaned up Neo4j data". -/
  | graphCleaned : StepLog
  /-- warning "Failed to delete graph data". -/
  | graphWarned : StepLog
  /-- "Cleaned up Milvus data". -/
  | vectorCleaned : StepLog
  /-- warning "Failed to delete vectors". -/
  | vectorWarned : StepLog
  /-- "Cleaned up MinIO file". -/
  | storageCleaned : StepLog
  /-- warning "Failed to delete file from storage". -/
  | storageWarned : StepLog
  /-- the storage adapter has no `delete_file` attribute. -/
  | storageSkipped : StepLog
  /-- "Removed Postgres record". -/
  | dbDeleted : StepLog
  /-- "already absent from Postgres". -/
  | dbAbsent : StepLog
deriving DecidableEq, Repr

/-- `DeleteDocumentRequest` DTO. -/
structure DeleteDocumentRequest where
  document_id : String
  tenant_id : String
  is_super_admin : Bool := false
deriving DecidableEq, Repr

/-- `DeleteDocumentResult` DTO; `status` defaults to "deleted". -/
structure DeleteDocumentResult where
  document_id : String
  status : String := "deleted"
deriving DecidableEq, Repr

/-- The tenant id resolved by `DeleteDocumentUseCase.execute`:
`document.tenant_id if document else request.tenant_id`. -/
def DeleteEnv.resolvedTenant (env : DeleteEnv) (req : DeleteDocumentRequest) : String :=
  match env.lookup req.document_id req.tenant_id req.is_super_admin with
  | some d => d.tenant_id
  | none => req.tenant_id

/-- The storage path resolved by `DeleteDocumentUseCase.execute`:
`document.storage_path if document else f"..."` built from the resolved
tenant and the requested document id. -/
def DeleteEnv.resolvedPath (env : DeleteEnv) (req : DeleteDocumentRequest) : String :=
  match env.lookup req.document_id req.tenant_id req.is_super_admin with
  | some d => d.storage_path
  | none => req.tenant_id ++ "/" ++ req.document_id ++ "/"

/-- `DeleteDocumentUseCase.execute`: resolve tenant and storage path from
the relational record when present, else fall back to the request's data;
run graph, vector and storage cleanup, each in its own `try/except` that
downgrades a failure to a warning log; finally delete the relational row
(this last step is not wrapped, so its failure would propagate) and
return the result DTO.  The returned list is the per-step log trace. -/
def DeleteDocumentUseCase.execute (env : DeleteEnv) (storageHasDelete : Bool)
    (req : DeleteDocumentRequest) :
    Except Unit (DeleteDocumentResult × List StepLog) := do
  let document := env.lookup req.document_id req.tenant_id req.is_super_admin
  let tenantId := DeleteEnv.resolvedTenant env req
  let storagePath := DeleteEnv.resolvedPath env req
  let graphLog := match env.graph_execute_write req.document_id tenantId with
    | .ok _ => StepLog.graphCleaned
    | .error _ => StepLog.graphWarned
  let vectorLog := match env.vector_delete req.document_id tenantId with
    | .ok _ => StepLog.vectorCleaned
    | .error _ => StepLog.vectorWarned
  let storageLog := if storageHasDelete then
      match env.storage_delete storagePath with
      | .ok _ => StepLog.storageCleaned
      | .error _ => StepLog.storageWarned
    else StepLog.storageSkipped
  let dbLog ← match document with
    | some _ => do
        env.db_delete req.document_id
        pure StepLog.dbDeleted
    | none => pure StepLog.dbAbsent
  pure ({ document_id := req.document_id }, [graphLog, vectorLog, storageLog, dbLog])

/-! ## UploadDocumentUseCase (src/core/ingestion/application/use_cases_documents.py)

The use case validates size, registers through
`IngestionService.register_document`, recomputes `is_duplicate` from the
returned document's status, and dispatches the background job only when
`is_duplicate` is false.  `IngestionService` itself
(`src/core/ingestion/application/ingestion_service.py`) and the
`DocumentStatus` enum (`src/core/state/machine.py`) are not in the tree;
they are modelled from the spec below. -/

/-- Modelled from the spec: the `DocumentStatus` state machine of
`src/core/state/machine.py`, which is missing from the tree — states
INGESTED through READY plus FAILED (spec section 4.1). -/
inductive DocumentStatus where
  | INGESTED : DocumentStatus
  | CLASSIFYING : DocumentStatus
  | EXTRACTING : DocumentStatus
  | CHUNKING : DocumentStatus
  | EMBEDDING : DocumentStatus
  | GRAPH_SYNCING : DocumentStatus
  | ENRICHING : DocumentStatus
  | READY : DocumentStatus
  | FAILED : DocumentStatus
deriving DecidableEq, Repr

/-- Relational `Document` fields used by registration: id (modelled as the
allocation counter), tenant, filename, content hash and status. -/
structure DocumentModel where
  id : Nat
  tenant_id : String
  filename : String
  content_hash : List Nat
  status : DocumentStatus
deriving DecidableEq, Repr

/-- Modelled from the spec: the cryptographic hash of the content bytes
computed by `register_document`, idealized as injective (a collision-free
hash), hence the identity on byte strings. -/
def content_hash_of (content : List Nat) : List Nat := content

/-- Relational store plus dispatched-job queue visible to the upload use
case: persisted documents, the id allocator, and the background jobs
dispatched as `(document_id, tenant_id)`. -/
structure IngestionState where
  docs : List DocumentModel
  next_id : Nat
  jobs : List (Nat × String)
deriving DecidableEq, Repr

/-- Modelled from the spec: `IngestionService.register_document`
(`src/core/ingestion/application/ingestion_service.py` is missing from
the tree).  Spec section 4.1: compute the content hash; look up an
existing Document for `(tenant_id, hash)`; if found return it unchanged
without persisting anything; otherwise persist a new Document in state
INGESTED and return it. -/
def register_document (st : IngestionState) (tenantId filename : String)
    (content : List Nat) : DocumentModel × IngestionState :=
  let h := content_hash_of content
  match st.docs.find? (fun d => d.tenant_id = tenantId ∧ d.content_hash = h) with
  | some d => (d, st)
  | none =>
    let d : DocumentModel :=
      { id := st.next_id, tenant_id := tenantId, filename := filename,
        content_hash := h, status := DocumentStatus.INGESTED }
    (d, { st with docs := st.docs ++ [d], next_id := st.next_id + 1 })

/-- `UploadDocumentRequest` DTO. -/
structure UploadDocumentRequest where
  tenant_id : String
  filename : String
  content : List Nat
  content_type : String
deriving DecidableEq, Repr

/-- `UploadDocumentResult` DTO. -/
structure UploadDocumentResult where
  document_id : Nat
  status : DocumentStatus
  is_duplicate : Bool
  message : String
deriving DecidableEq, Repr

/-- `UploadDocumentUseCase.execute`: reject empty or oversized content
(`ValueError`, modelled as `Except.error`); register through
`register_document`; set `is_duplicate` to
`document.status != DocumentStatus.INGESTED`; dispatch
`process_document(document.id, tenant_id)` only when `is_duplicate` is
false; return the result DTO. -/
def UploadDocumentUseCase.execute (maxSizeBytes : Nat) (st : IngestionState)
    (req : UploadDocumentRequest) :
    Except String (UploadDocumentResult × IngestionState) :=
  if req.content.length = 0 then
    .error "Empty file uploaded"
  else if req.content.length > maxSizeBytes then
    .error "File too large"
  else
    let reg := register_document st req.tenant_id req.filename req.content
    let document := reg.1
    let st1 := reg.2
    let is_duplicate : Bool := document.status ≠ DocumentStatus.INGESTED
    let st2 := if is_duplicate then st1
      else { st1 with jobs := st1.jobs ++ [(document.id, req.tenant_id)] }
    .ok ({ document_id := document.id, status := document.status,
           is_duplicate := is_duplicate,
           message := if is_duplicate then "Document deduplicated"
             else "Document accepted for processing" }, st2)

/-! ## Theorems -/

/-- Helper: a continuing gleaning step only appends to the accumulated
entity list, so accumulated entities persist. -/
theorem gleanStep_keeps_entities {D : Type} (env : ExtractorEnv D) (p : Provider)
    (text : String) {cur next : ExtractionResult}
    (h : GraphExtractor.gleanStep env p text cur = some next)
    {x : ExtractedEntity} (hx : x ∈ cur.entities) : x ∈ next.entities := by
  unfold GraphExtractor.gleanStep at h
  rcases hgen : p.generate
      (GraphExtractor.gleanPrompt text (cur.entities.map (fun e => e.name)))
      GLEANING_SYSTEM_PROMPT (2/10) with e | out
  · rw [hgen] at h
    simp at h
  · rw [hgen] at h
    simp only at h
    rcases hpr : GraphExtractor.parse_result env out with e | items
    · rw [hpr] at h
      simp at h
    · rw [hpr] at h
      simp only at h
      split at h
      · simp at h
      · cases h
        simp [hx]

/-- C4 counterexample: the model output `[1, 2]` is valid JSON that
fails `ExtractionResult` schema validation, yet `_parse_result` does not
return an empty result without error — the `**` unpacking of the decoded
list raises a `TypeError` that neither handler catches, so the error
propagates to the caller. -/
theorem C4_counterexample :
    GraphExtractor.parse_result exampleExtractorEnv "[1, 2]" =
      .error PyExc.typeError := rfl

/-- C4 (amended): `_parse_result` returns the empty `ExtractionResult`
with no error exactly for the failures its handlers cover — JSON decode
failure, and pydantic validation failure of a decoded mapping; when the
output decodes to a non-mapping JSON value, the `ExtractionResult(**data)`
call raises an uncaught `TypeError` that propagates to the caller. -/
theorem C4_parse_handled_failures_yield_empty {D : Type} (env : ExtractorEnv D)
    (s : String) :
    (((∃ e, env.jsonLoads (GraphExtractor.cleanFences s) = .error e) ∨
      (∃ d, env.jsonLoads (GraphExtractor.cleanFences s) = .ok d ∧
            env.isMapping d = true ∧ ∃ e, env.validate d = .error e)) →
      GraphExtractor.parse_result env s = .ok ExtractionResult.empty) ∧
    (∀ d, env.jsonLoads (GraphExtractor.cleanFences s) = .ok d →
      env.isMapping d = false →
      GraphExtractor.parse_result env s = .error PyExc.typeError) := by
  constructor
  · intro h
    unfold GraphExtractor.parse_result
    rcases h with ⟨e, he⟩ | ⟨d, hd, hmap, e, he⟩
    · simp [he]
    · simp [hd, hmap, he]
  · intro d hd hmap
    unfold GraphExtractor.parse_result
    simp [hd, hmap]

/-- Witness for the amended C4 at a concrete environment: a
non-decodable input yields the empty result without error. -/
theorem C4_parse_handled_failures_yield_empty_witness :
    GraphExtractor.parse_result exampleRaisingProviderEnv "not json at all" =
      .ok ExtractionResult.empty :=
  (C4_parse_handled_failures_yield_empty exampleRaisingProviderEnv
      "not json at all").1 (Or.inl ⟨(), rfl⟩)

/-- Helper: unfolding equation of the gleaning loop at a breaking step. -/
theorem gleanLoop_succ_none {D : Type} (env : ExtractorEnv D) (p : Provider)
    (text : String) (n : Nat) (cur : ExtractionResult)
    (hstep : GraphExtractor.gleanStep env p text cur = none) :
    GraphExtractor.gleanLoop env p text (n + 1) cur = cur := by
  simp only [GraphExtractor.gleanLoop, hstep]

/-- Helper: unfolding equation of the gleaning loop at a continuing step. -/
theorem gleanLoop_succ_some {D : Type} (env : ExtractorEnv D) (p : Provider)
    (text : String) (n : Nat) (cur next : ExtractionResult)
    (hstep : GraphExtractor.gleanStep env p text cur = some next) :
    GraphExtractor.gleanLoop env p text (n + 1) cur =
      GraphExtractor.gleanLoop env p text n next := by
  simp only [GraphExtractor.gleanLoop, hstep]

/-- C7: gleaning only adds.  For every pass index `i`, the entity set of
the accumulator after `i + 1` gleaning passes contains the entity set
after `i` passes; and when the provider is acquired, gleaning is enabled
and the base pass generates and parses successfully,
`GraphExtractor.extract` is exactly `max_gleaning_steps` iterations of
the gleaning loop from the parsed base result. -/
theorem C7_gleaning_monotone {D : Type} (env : ExtractorEnv D) (p : Provider)
    (text : String) :
    (∀ (base : ExtractionResult) (i : Nat) (x : ExtractedEntity),
        x ∈ (GraphExtractor.gleanLoop env p text i base).entities →
        x ∈ (GraphExtractor.gleanLoop env p text (i + 1) base).entities) ∧
    (∀ (cfg : GraphExtractorCfg) (resultText : String) (base : ExtractionResult),
        cfg.use_gleaning = true →
        env.get_llm_provider = .ok p →
        p.generate (GraphExtractor.basePrompt text) EXTRACTION_SYSTEM_PROMPT 0 =
          .ok resultText →
        GraphExtractor.parse_result env resultText = .ok base →
        GraphExtractor.extract env cfg text =
          .ok (GraphExtractor.gleanLoop env p text cfg.max_gleaning_steps base)) := by
  constructor
  · intro base i
    induction i generalizing base with
    | zero =>
      intro x hx
      simp only [GraphExtractor.gleanLoop] at hx
      rcases hstep : GraphExtractor.gleanStep env p text base with _ | next
      · rw [gleanLoop_succ_none env p text 0 base hstep]
        exact hx
      · rw [gleanLoop_succ_some env p text 0 base next hstep]
        simp only [GraphExtractor.gleanLoop]
        exact gleanStep_keeps_entities env p text hstep hx
    | succ n ih =>
      intro x hx
      rcases hstep : GraphExtractor.gleanStep env p text base with _ | next
      · rw [gleanLoop_succ_none env p text n base hstep] at hx
        rw [gleanLoop_succ_none env p text (n + 1) base hstep]
        exact hx
      · rw [gleanLoop_succ_some env p text n base next hstep] at hx
        rw [gleanLoop_succ_some env p text (n + 1) base next hstep]
        exact ih next x hx
  · intro cfg resultText base hg hprov hgen hparse
    unfold GraphExtractor.extract
    simp [hprov, hgen, hparse, hg]

/-- Witness for C7 at a concrete environment (provider raising on the
gleaning call, so the loop breaks and monotonicity is the identity). -/
theorem C7_gleaning_monotone_witness :
    ({ name := "Neo4j", type := "TECHNOLOGY", description := "db" } : ExtractedEntity) ∈
      (GraphExtractor.gleanLoop exampleRaisingProviderEnv
        { generate := fun _ _ _ => .error () } "txt" 1
        { entities := [{ name := "Neo4j", type := "TECHNOLOGY", description := "db" }] }).entities :=
  (C7_gleaning_monotone exampleRaisingProviderEnv
      { generate := fun _ _ _ => .error () } "txt").1
    { entities := [{ name := "Neo4j", type := "TECHNOLOGY", description := "db" }] }
    0 _ (by simp [GraphExtractor.gleanLoop])

/-- C9 counterexample: when providers are not initialized,
`get_llm_provider` — called before the `try` block — raises, and
`extract` propagates the exception to its caller instead of returning a
result. -/
theorem C9_counterexample :
    GraphExtractor.extract exampleExtractorEnv {} "some text" = .error () := rfl

/-- C9 (amended): `extract` propagates a provider-acquisition failure
(the `get_llm_provider` call sits outside the `try`); once a provider is
obtained no exception propagates: a raising base-pass call yields the
empty `ExtractionResult` and a raising gleaning call stops the loop with
the accumulated result. -/
theorem C9_extract_absorbs_errors_after_acquisition {D : Type}
    (env : ExtractorEnv D) (cfg : GraphExtractorCfg) (text : String) :
    (∀ e : Unit, env.get_llm_provider = .error e →
        GraphExtractor.extract env cfg text = .error e) ∧
    (∀ (p : Provider) (e : Unit), env.get_llm_provider = .ok p →
        p.generate (GraphExtractor.basePrompt text) EXTRACTION_SYSTEM_PROMPT 0 =
          .error e →
        GraphExtractor.extract env cfg text = .ok ExtractionResult.empty) ∧
    (∀ (p : Provider) (cur : ExtractionResult) (n : Nat) (e : Unit),
        p.generate
            (GraphExtractor.gleanPrompt text (cur.entities.map (fun x => x.name)))
            GLEANING_SYSTEM_PROMPT (2/10) = .error e →
        GraphExtractor.gleanLoop env p text (n + 1) cur = cur) := by
  refine ⟨?_, ?_, ?_⟩
  · intro e he
    unfold GraphExtractor.extract
    simp [he]
  · intro p e hprov hgen
    unfold GraphExtractor.extract
    simp [hprov, hgen]
  · intro p cur n e he
    simp only [GraphExtractor.gleanLoop]
    unfold GraphExtractor.gleanStep
    rw [he]

/-- Witness for the amended C9: with an available provider whose
generate call raises, `extract` returns the empty result without
raising. -/
theorem C9_extract_absorbs_errors_after_acquisition_witness :
    GraphExtractor.extract exampleRaisingProviderEnv {} "some text" =
      .ok ExtractionResult.empty :=
  (C9_extract_absorbs_errors_after_acquisition exampleRaisingProviderEnv
      {} "some text").2.1
    { generate := fun _ _ _ => .error () } () rfl rfl

/-- Helper: the gathered fan-out of `process_chunks` returns normally
with exactly one absorbed outcome per chunk. -/
theorem process_chunks_eq_map (env : ProcessorEnv) (tenantId : String) :
    ∀ chunks : List Chunk,
      GraphProcessor.process_chunks env chunks tenantId =
        .ok (chunks.map (GraphProcessor.processOne env tenantId)) := by
  intro chunks
  induction chunks with
  | nil => rfl
  | cons c rest ih =>
    simp only [GraphProcessor.process_chunks, ih, List.map]
    rfl

/-- C8: a chunk whose extraction/write unit raises is logged and
absorbed (`failedLogged`); `process_chunks` still returns normally with
one outcome per chunk — each computed by that chunk's own unit — and the
failing chunk's outcome is present among them. -/
theorem C8_chunk_failures_isolated (env : ProcessorEnv) (tenantId : String)
    (chunks : List Chunk) (c : Chunk) (hc : c ∈ chunks)
    (hfail : GraphProcessor.runUnit env tenantId c = .error ()) :
    GraphProcessor.process_chunks env chunks tenantId =
      .ok (chunks.map (GraphProcessor.processOne env tenantId)) ∧
    GraphProcessor.processOne env tenantId c = ChunkOutcome.failedLogged ∧
    ChunkOutcome.failedLogged ∈ chunks.map (GraphProcessor.processOne env tenantId) := by
  have hone : GraphProcessor.processOne env tenantId c = ChunkOutcome.failedLogged := by
    unfold GraphProcessor.processOne
    rw [hfail]
  exact ⟨process_chunks_eq_map env tenantId chunks, hone,
    List.mem_map.mpr ⟨c, hc, hone⟩⟩

/-- Witness for C8: a two-chunk list whose first unit raises on
extraction while the second is written. -/
theorem C8_chunk_failures_isolated_witness :
    GraphProcessor.process_chunks
      ({ extract := fun t =>
            if t = "a full length chunk whose extraction raises a provider error!!"
            then .error ()
            else .ok { entities := [{ name := "E", type := "T", description := "d" }] },
         write := fun _ _ _ _ => .ok () } : ProcessorEnv)
      [{ id := "c1", document_id := "d1",
         content := "a full length chunk whose extraction raises a provider error!!" },
       { id := "c2", document_id := "d1",
         content := "a full length chunk whose extraction succeeds and is written!!" }]
      "tenant" =
      .ok [ChunkOutcome.failedLogged, ChunkOutcome.written] := by
  have h := C8_chunk_failures_isolated
    ({ extract := fun t =>
          if t = "a full length chunk whose extraction raises a provider error!!"
          then .error ()
          else .ok { entities := [{ name := "E", type := "T", description := "d" }] },
       write := fun _ _ _ _ => .ok () } : ProcessorEnv)
    "tenant"
    [{ id := "c1", document_id := "d1",
       content := "a full length chunk whose extraction raises a provider error!!" },
     { id := "c2", document_id := "d1",
       content := "a full length chunk whose extraction succeeds and is written!!" }]
    { id := "c1", document_id := "d1",
      content := "a full length chunk whose extraction raises a provider error!!" }
    (by simp)
    rfl
  rw [h.1]
  rfl

/-- C5: every SIMILAR_TO merge issued by `create_similarity_edges` goes
from `chunk_id` to a different id and carries a score at least
`threshold`: no self-edge and no below-threshold edge is ever created. -/
theorem C5_similarity_edges_filtered
    (search : List ℚ → String → Nat → Except Unit (List SearchResult))
    (chunkId : String) (embedding : List ℚ) (tenantId : String)
    (threshold : ℚ) (limit : Nat) :
    ∀ e ∈ GraphEnricher.create_similarity_edges search chunkId embedding
        tenantId threshold limit,
      e.id1 = chunkId ∧ e.id2 ≠ some chunkId ∧ threshold ≤ e.score := by
  intro e he
  unfold GraphEnricher.create_similarity_edges at he
  rcases hres : search embedding tenantId (limit + 1) with err | results
  · rw [hres] at he
    simp at he
  · rw [hres] at he
    simp only [List.mem_filterMap] at he
    obtain ⟨res, _, hmap⟩ := he
    split at hmap
    · exact absurd hmap (by simp)
    · split at hmap
      · exact absurd hmap (by simp)
      · rename_i hid hsc
        obtain rfl := Option.some.inj hmap
        exact ⟨rfl, hid, le_of_not_lt hsc⟩

/-- Witness for C5 at a concrete search result list holding a self hit,
an above-threshold hit and a below-threshold hit. -/
theorem C5_similarity_edges_filtered_witness :
    ({ id1 := "self", id2 := some "a", score := 3 } : SimilarityEdge).id1 = "self" ∧
    ({ id1 := "self", id2 := some "a", score := 3 } : SimilarityEdge).id2 ≠ some "self" ∧
    (1 : ℚ) ≤ ({ id1 := "self", id2 := some "a", score := 3 } : SimilarityEdge).score :=
  C5_similarity_edges_filtered
    (fun _ _ _ => .ok [{ id := some "self", score := some 5 },
                       { id := some "a", score := some 3 },
                       { id := some "b", score := some 0 }])
    "self" [] "tenant" 1 5
    { id1 := "self", id2 := some "a", score := 3 }
    (by decide)

/-- Helper: membership characterization of the CO_OCCURS merge set. -/
theorem co_occurrence_mem (g : GraphEnricher.CoGraph) (t : String) (minW : Nat)
    (x : Nat × Nat × Nat) :
    x ∈ GraphEnricher.compute_co_occurrence g t minW ↔
      x.1 ∈ g.entities ∧ x.2.1 ∈ g.entities ∧
      g.tenant_of x.1 = t ∧ g.tenant_of x.2.1 = t ∧ x.1 < x.2.1 ∧
      0 < GraphEnricher.sharedChunkCount g x.1 x.2.1 ∧
      minW ≤ GraphEnricher.sharedChunkCount g x.1 x.2.1 ∧
      x.2.2 = GraphEnricher.sharedChunkCount g x.1 x.2.1 := by
  obtain ⟨a, b, w⟩ := x
  unfold GraphEnricher.compute_co_occurrence
  simp only [Finset.mem_image, Finset.mem_filter, Finset.mem_product]
  constructor
  · rintro ⟨p, ⟨⟨hp1, hp2⟩, ht1, ht2, hlt, hpos, hmin⟩, heq⟩
    obtain ⟨p1, p2⟩ := p
    simp only [Prod.mk.injEq] at heq
    obtain ⟨h1, h2, h3⟩ := heq
    subst h1
    subst h2
    subst h3
    exact ⟨hp1, hp2, ht1, ht2, hlt, hpos, hmin, rfl⟩
  · rintro ⟨h1, h2, h3, h4, h5, h6, h7, h8⟩
    exact ⟨(a, b), ⟨⟨h1, h2⟩, h3, h4, h5, h6, h7⟩, by simp [h8]⟩

/-- C6: `compute_co_occurrence` canonicalizes every pair by the
`elementId` order, so each unordered entity pair is represented by at
most one CO_OCCURS merge; its weight is the shared-chunk count, written
only when at least `min_weight`; in particular with `min_weight = 2` a
pair sharing exactly 1 chunk yields no merge, and a pair sharing exactly
2 chunks yields the merge with weight 2 (unique by the second part). -/
theorem C6_co_occurrence_canonical (g : GraphEnricher.CoGraph) (t : String)
    (minW : Nat) :
    (∀ x ∈ GraphEnricher.compute_co_occurrence g t minW,
        x.1 < x.2.1 ∧
        x.2.2 = GraphEnricher.sharedChunkCount g x.1 x.2.1 ∧
        minW ≤ x.2.2 ∧ 0 < x.2.2) ∧
    (∀ x ∈ GraphEnricher.compute_co_occurrence g t minW,
        ∀ y ∈ GraphEnricher.compute_co_occurrence g t minW,
        ((y.1 = x.1 ∧ y.2.1 = x.2.1) ∨ (y.1 = x.2.1 ∧ y.2.1 = x.1)) → y = x) ∧
    (∀ e1 e2 w : Nat, GraphEnricher.sharedChunkCount g e1 e2 = 1 →
        (e1, e2, w) ∉ GraphEnricher.compute_co_occurrence g t 2) ∧
    (∀ e1 e2 : Nat, e1 ∈ g.entities → e2 ∈ g.entities →
        g.tenant_of e1 = t → g.tenant_of e2 = t → e1 < e2 →
        GraphEnricher.sharedChunkCount g e1 e2 = 2 →
        (e1, e2, 2) ∈ GraphEnricher.compute_co_occurrence g t 2) := by
  refine ⟨?_, ?_, ?_, ?_⟩
  · intro x hx
    obtain ⟨_, _, _, _, hlt, hpos, hmin, hw⟩ := (co_occurrence_mem g t minW x).mp hx
    exact ⟨hlt, hw, hw ▸ hmin, hw ▸ hpos⟩
  · intro x hx y hy hcase
    obtain ⟨a, b, w⟩ := x
    obtain ⟨a2, b2, w2⟩ := y
    obtain ⟨_, _, _, _, hltx, _, _, hwx⟩ := (co_occurrence_mem g t minW _).mp hx
    obtain ⟨_, _, _, _, hlty, _, _, hwy⟩ := (co_occurrence_mem g t minW _).mp hy
    simp only at hltx hlty hwx hwy
    rcases hcase with ⟨h1, h2⟩ | ⟨h1, h2⟩
    · simp only at h1 h2
      subst h1
      subst h2
      simp [hwx, hwy]
    · simp only at h1 h2
      subst h1
      subst h2
      omega
  · intro e1 e2 w hshared hmem
    obtain ⟨_, _, _, _, _, _, hmin, _⟩ := (co_occurrence_mem g t 2 _).mp hmem
    simp only [hshared] at hmin
    omega
  · intro e1 e2 he1 he2 ht1 ht2 hlt hshared
    exact (co_occurrence_mem g t 2 _).mpr
      ⟨he1, he2, ht1, ht2, hlt, by dsimp only; omega, by dsimp only; omega,
        hshared.symm⟩

/-- Witness for C6: two entities of the same tenant mentioned together by
exactly two chunks produce the CO_OCCURS merge of weight 2 under
`min_weight = 2`. -/
theorem C6_co_occurrence_canonical_witness :
    ((1, 2, 2) : Nat × Nat × Nat) ∈ GraphEnricher.compute_co_occurrence
      { entities := {1, 2}, tenant_of := fun _ => "t", chunks := {10, 20},
        mentions := {(10, 1), (10, 2), (20, 1), (20, 2)} } "t" 2 :=
  (C6_co_occurrence_canonical
      { entities := {1, 2}, tenant_of := fun _ => "t", chunks := {10, 20},
        mentions := {(10, 1), (10, 2), (20, 1), (20, 2)} } "t" 2).2.2.2
    1 2 (by decide) (by decide) rfl rfl (by decide) (by decide)

/-- Helper: every semaphore transition preserves
`inFlight + sem = semLimit`. -/
theorem procStep_sem_invariant {s t : GraphProcessor.ProcState}
    (h : GraphProcessor.ProcStep s t)
    (hs : s.inFlight + s.sem = GraphProcessor.semLimit) :
    t.inFlight + t.sem = GraphProcessor.semLimit := by
  cases h <;> simp_all <;> omega

/-- C10: in every state reachable during a `process_chunks` run over any
number of chunks, at most `semLimit = 5` units hold the semaphore, i.e.
at most 5 extraction calls are in flight at any instant. -/
theorem C10_concurrency_bound (m : Nat) (s : GraphProcessor.ProcState)
    (h : GraphProcessor.ProcReachable m s) :
    s.inFlight ≤ GraphProcessor.semLimit := by
  unfold GraphProcessor.ProcReachable at h
  have hinv : s.inFlight + s.sem = GraphProcessor.semLimit := by
    induction h with
    | refl => rfl
    | tail _ hbc ih => exact procStep_sem_invariant hbc ih
  omega

/-- Witness for C10: the state reached after one unit acquires the
semaphore in a 7-chunk run. -/
theorem C10_concurrency_bound_witness :
    ({ pending := 6, inFlight := 1, completed := 0, sem := 4 } :
      GraphProcessor.ProcState).inFlight ≤ GraphProcessor.semLimit :=
  C10_concurrency_bound 7 _
    (Relation.ReflTransGen.single (GraphProcessor.ProcStep.acquire 6 0 0 4))

/-- C2: after the graph-cleanup step of document deletion, every entity
mentioned by the deleted document and by nothing else is gone, and every
entity still mentioned by a chunk of another document survives (chunk
ownership being unique, as the data model guarantees). -/
theorem C2_deletion_orphan_entities (g : DelGraph) (docId tenantId : String)
    (hdoc : (docId, tenantId) ∈ g.docs)
    (howner : ∀ d1 d2 c, (d1, c) ∈ g.has_chunk → (d2, c) ∈ g.has_chunk → d1 = d2) :
    (∀ e ∈ g.entities,
        (∃ c ∈ DelGraph.docChunks g docId, (c, e) ∈ g.mentions) →
        (∀ c, (c, e) ∈ g.mentions → c ∈ DelGraph.docChunks g docId) →
        e ∉ (DelGraph.delete_document_graph g docId tenantId).entities) ∧
    (∀ e ∈ g.entities, ∀ d c, d ≠ docId → (d, c) ∈ g.has_chunk →
        (c, e) ∈ g.mentions →
        e ∈ (DelGraph.delete_document_graph g docId tenantId).entities) := by
  constructor
  · intro e he hex hall hmem
    unfold DelGraph.delete_document_graph at hmem
    rw [if_pos hdoc] at hmem
    obtain ⟨-, hno⟩ := Finset.mem_sdiff.mp hmem
    refine hno (Finset.mem_filter.mpr ⟨Finset.mem_filter.mpr ⟨he, hex⟩, ?_⟩)
    intro m hm hme
    obtain ⟨hmm, hnot⟩ := Finset.mem_filter.mp hm
    exact hnot (hall m.1 (by rw [← hme]; exact hmm))
  · intro e he d c hd hdc hce
    unfold DelGraph.delete_document_graph
    rw [if_pos hdoc]
    refine Finset.mem_sdiff.mpr ⟨he, fun horph => ?_⟩
    obtain ⟨-, hforall⟩ := Finset.mem_filter.mp horph
    refine hforall (c, e) (Finset.mem_filter.mpr ⟨hce, fun hcd => ?_⟩) rfl
    obtain ⟨-, hdc2⟩ := Finset.mem_filter.mp hcd
    exact hd (howner d docId c hdc hdc2)

/-- Witness for C2 on `exampleDelGraph`: deleting `d1` removes entity
`x` (mentioned only by `d1`'s chunk) and keeps entity `s` (also
mentioned by `d2`'s chunk). -/
theorem C2_deletion_orphan_entities_witness :
    "x" ∉ (DelGraph.delete_document_graph exampleDelGraph "d1" "t").entities ∧
    "s" ∈ (DelGraph.delete_document_graph exampleDelGraph "d1" "t").entities := by
  have howner : ∀ d1 d2 c, (d1, c) ∈ exampleDelGraph.has_chunk →
      (d2, c) ∈ exampleDelGraph.has_chunk → d1 = d2 := by
    intro d1 d2 c h1 h2
    exact (by decide : ∀ p ∈ exampleDelGraph.has_chunk,
      ∀ q ∈ exampleDelGraph.has_chunk, p.2 = q.2 → p.1 = q.1) (d1, c) h1 (d2, c) h2 rfl
  have h := C2_deletion_orphan_entities exampleDelGraph "d1" "t" (by decide) howner
  constructor
  · refine h.1 "x" (by decide) (by decide) ?_
    intro c hc
    exact (by decide : ∀ m ∈ exampleDelGraph.mentions,
      m.2 = "x" → m.1 ∈ DelGraph.docChunks exampleDelGraph "d1") (c, "x") hc rfl
  · exact h.2 "s" (by decide) "d2" "c2" (by decide) (by decide) (by decide)

/-- C3: for every environment, once the relational delete succeeds the
call returns the `{document_id, status: "deleted"}` DTO with all four
cleanup steps having run, and a failure in the graph, vector or storage
step is recorded as a warning log without preventing the later steps or
the successful return. -/
theorem C3_deletion_failure_isolated (env : DeleteEnv) (storageHasDelete : Bool)
    (req : DeleteDocumentRequest)
    (hdb : env.db_delete req.document_id = .ok ()) :
    ∃ gl vl sl dl,
      DeleteDocumentUseCase.execute env storageHasDelete req =
        .ok ({ document_id := req.document_id, status := "deleted" },
             [gl, vl, sl, dl]) ∧
      ((∃ e, env.graph_execute_write req.document_id
          (DeleteEnv.resolvedTenant env req) = .error e) → gl = .graphWarned) ∧
      ((∃ e, env.vector_delete req.document_id
          (DeleteEnv.resolvedTenant env req) = .error e) → vl = .vectorWarned) ∧
      (storageHasDelete = true →
        (∃ e, env.storage_delete (DeleteEnv.resolvedPath env req) = .error e) →
        sl = .storageWarned) := by
  unfold DeleteDocumentUseCase.execute
  rcases hgr : env.graph_execute_write req.document_id
      (DeleteEnv.resolvedTenant env req) with eg | ug <;>
  rcases hv : env.vector_delete req.document_id
      (DeleteEnv.resolvedTenant env req) with ev | uv <;>
  rcases hs : env.storage_delete (DeleteEnv.resolvedPath env req) with es | us <;>
  rcases hdoc : env.lookup req.document_id req.tenant_id req.is_super_admin
      with _ | d <;>
  cases storageHasDelete <;>
  simp only [hgr, hv, hs, hdoc, hdb] <;>
  refine ⟨_, _, _, _, rfl, ?_, ?_, ?_⟩ <;>
  simp [hgr, hv, hs]

/-- Witness for C3: graph and vector cleanup both fail, yet deletion
returns the successful DTO with warnings recorded and the storage and
relational steps still run. -/
theorem C3_deletion_failure_isolated_witness :
    ∃ gl vl sl dl,
      DeleteDocumentUseCase.execute
        { lookup := fun _ _ _ => some { tenant_id := "t", storage_path := "t/doc/" },
          graph_execute_write := fun _ _ => .error (),
          vector_delete := fun _ _ => .error (),
          storage_delete := fun _ => .ok (),
          db_delete := fun _ => .ok () } true
        { document_id := "doc", tenant_id := "t", is_super_admin := false } =
        .ok ({ document_id := "doc", status := "deleted" }, [gl, vl, sl, dl]) ∧
      ((∃ e, (fun (_ _ : String) => (.error () : Except Unit Unit)) "doc" "t" = .error e) →
        gl = .graphWarned) ∧
      ((∃ e, (fun (_ _ : String) => (.error () : Except Unit Unit)) "doc" "t" = .error e) →
        vl = .vectorWarned) ∧
      (true = true →
        (∃ e, (fun (_ : String) => (.ok () : Except Unit Unit)) "t/doc/" = .error e) →
        sl = .storageWarned) :=
  C3_deletion_failure_isolated
    { lookup := fun _ _ _ => some { tenant_id := "t", storage_path := "t/doc/" },
      graph_execute_write := fun _ _ => .error (),
      vector_delete := fun _ _ => .error (),
      storage_delete := fun _ => .ok (),
      db_delete := fun _ => .ok () } true
    { document_id := "doc", tenant_id := "t", is_super_admin := false } rfl

/-- C1 counterexample: with an empty store, uploading the same bytes for
the same tenant twice in a row (the first document still in state
INGESTED) makes the second call report `is_duplicate = false` and
dispatch a second processing job for the same document id — the claim's
`is_duplicate = true` / no-second-job behaviour does not hold. -/
theorem C1_counterexample :
    UploadDocumentUseCase.execute 100 { docs := [], next_id := 0, jobs := [] }
        { tenant_id := "t", filename := "f", content := [1],
          content_type := "text/plain" } =
      .ok ({ document_id := 0, status := .INGESTED, is_duplicate := false,
             message := "Document accepted for processing" },
           { docs := [{ id := 0, tenant_id := "t", filename := "f",
                        content_hash := [1], status := .INGESTED }],
             next_id := 1, jobs := [(0, "t")] }) ∧
    UploadDocumentUseCase.execute 100
        { docs := [{ id := 0, tenant_id := "t", filename := "f",
                     content_hash := [1], status := .INGESTED }],
          next_id := 1, jobs := [(0, "t")] }
        { tenant_id := "t", filename := "f", content := [1],
          content_type := "text/plain" } =
      .ok ({ document_id := 0, status := .INGESTED, is_duplicate := false,
             message := "Document accepted for processing" },
           { docs := [{ id := 0, tenant_id := "t", filename := "f",
                        content_hash := [1], status := .INGESTED }],
             next_id := 1, jobs := [(0, "t"), (0, "t")] }) :=
  ⟨rfl, rfl⟩

/-- C1 (amended): when the stored duplicate has advanced out of INGESTED,
re-registering the same bytes returns the first registration's document
id with `is_duplicate = true`, leaves the store unchanged (the document
in particular) and dispatches no second processing job. -/
theorem C1_duplicate_upload_after_processing (maxSizeBytes : Nat)
    (st : IngestionState) (req : UploadDocumentRequest) (d : DocumentModel)
    (hfind : st.docs.find? (fun x => x.tenant_id = req.tenant_id ∧
        x.content_hash = content_hash_of req.content) = some d)
    (hst : d.status ≠ DocumentStatus.INGESTED)
    (hne : req.content.length ≠ 0) (hsz : req.content.length ≤ maxSizeBytes) :
    UploadDocumentUseCase.execute maxSizeBytes st req =
      .ok ({ document_id := d.id, status := d.status, is_duplicate := true,
             message := "Document deduplicated" }, st) := by
  unfold UploadDocumentUseCase.execute register_document
  rw [if_neg hne, if_neg (by omega : ¬ req.content.length > maxSizeBytes)]
  simp only [hfind]
  simp [hst]

/-- Witness for the amended C1: the stored duplicate is READY, so the
second upload reports `is_duplicate = true` and dispatches nothing. -/
theorem C1_duplicate_upload_after_processing_witness :
    UploadDocumentUseCase.execute 100
        { docs := [{ id := 0, tenant_id := "t", filename := "f",
                     content_hash := [1], status := .READY }],
          next_id := 1, jobs := [] }
        { tenant_id := "t", filename := "f", content := [1],
          content_type := "text/plain" } =
      .ok ({ document_id := 0, status := .READY, is_duplicate := true,
             message := "Document deduplicated" },
           { docs := [{ id := 0, tenant_id := "t", filename := "f",
                        content_hash := [1], status := .READY }],
             next_id := 1, jobs := [] }) :=
  C1_duplicate_upload_after_processing 100
    { docs := [{ id := 0, tenant_id := "t", filename := "f",
                 content_hash := [1], status := .READY }],
      next_id := 1, jobs := [] }
    { tenant_id := "t", filename := "f", content := [1],
      content_type := "text/plain" }
    { id := 0, tenant_id := "t", filename := "f", content_hash := [1],
      status := .READY }
    rfl (by decide) (by decide) (by decide)

end Amber
